import Mathlib

/-!
Verification development for the T0 run-configuration engine
(`src/python/T0/RunConfig/RunConfigAPI.py` and
`src/python/T0/WMBS/Oracle/Subscriptions/GetUsedLumis.py`).

The Python functions are shallowly embedded as executable Lean
definitions; theorems below settle the specification claims about them.
-/

/-- Python values as they occur in the dynamic configuration dicts of
`RunConfigAPI.py`: `None`, booleans, integers and strings. -/
inductive PyVal where
  | none : PyVal
  | bool (b : Bool) : PyVal
  | int (n : Int) : PyVal
  | str (s : String) : PyVal
deriving DecidableEq, Repr

/-- Python truthiness of a `PyVal` (`if value:`): `None`, `False`, `0`
and the empty string are falsy, everything else is truthy. -/
def PyVal.truthy : PyVal → Bool
  | .none => false
  | .bool b => b
  | .int n => n != 0
  | .str s => s != ""

/-- A dict-shaped configuration parameter as consumed by
`extractConfigParameter`: an optional `acqEra` era-to-value mapping,
an optional `maxRun` threshold-to-value mapping, and the mandatory
`default` entry.  The mappings are association lists standing for the
Python dicts. -/
structure ParamDict where
  acqEra : Option (List (String × PyVal))
  maxRun : Option (List (Int × PyVal))
  default : PyVal
deriving DecidableEq, Repr

/-- A configuration parameter: either a plain scalar or a dict-shaped
override (`isinstance(configParameter, dict)` branch). -/
inductive ConfigParameter where
  | scalar (v : PyVal) : ConfigParameter
  | dict (d : ParamDict) : ConfigParameter
deriving DecidableEq, Repr

/-- The `maxRun` scan of `extractConfigParameter`
(`RunConfigAPI.py` lines 35-38): iterate the threshold keys in
ascending sorted order and keep overwriting `newConfigParameter`
whenever `run <= maxRun`. -/
def maxRunScan (run : Int) (m : List (Int × PyVal)) : Option PyVal :=
  (List.insertionSort (fun a b => a ≤ b) (m.map Prod.fst)).foldl
    (fun acc k => if run ≤ k then m.lookup k else acc) Option.none

/-- Embedding of `extractConfigParameter` (`RunConfigAPI.py` lines 24-43):
era-keyed override first, then the `maxRun` threshold scan (its result
honoured only when truthy), then the mandatory default; non-dict values
are returned unchanged. -/
def extractConfigParameter (configParameter : ConfigParameter) (era : String)
    (run : Int) : PyVal :=
  match configParameter with
  | .scalar v => v
  | .dict d =>
    match d.acqEra.bind (fun m => m.lookup era) with
    | some v => v
    | Option.none =>
      match d.maxRun with
      | some m =>
        match maxRunScan run m with
        | some v => if v.truthy then v else d.default
        | Option.none => d.default
      | Option.none => d.default





/-- The overwriting fold used by the `maxRun` scan returns the image of
the last key in iteration order that satisfies `run <= key`, or the
initial accumulator when no key satisfies it. -/
theorem foldl_overwrite (run : Int) (g : Int → Option PyVal) :
    ∀ (ks : List Int) (init : Option PyVal),
      ks.foldl (fun acc k => if run ≤ k then g k else acc) init =
        ((ks.filter (fun k => decide (run ≤ k))).getLast?).elim init g := by
  intro ks
  induction ks with
  | nil => intro init; rfl
  | cons k rest ih =>
    intro init
    by_cases h : run ≤ k
    · simp only [List.foldl_cons, List.filter_cons, decide_eq_true_eq, h, if_pos, ite_true]
      rw [ih (g k)]
      cases hrest : rest.filter (fun k => decide (run ≤ k)) with
      | nil => simp
      | cons x xs =>
        cases e : (x :: xs).getLast? with
        | none => simp at e
        | some y => rw [List.getLast?_cons_cons, e]; simp
    · simp only [List.foldl_cons, List.filter_cons, decide_eq_true_eq, h, if_neg, ite_false,
        not_false_iff]
      exact ih init

/-- In an ascending sorted duplicate-free list, a member that is an
upper bound of all elements is the last element. -/
theorem getLast?_eq_of_sorted_max :
    ∀ (l : List Int), l.Sorted (fun a b => a ≤ b) → l.Nodup →
      ∀ k, k ∈ l → (∀ x ∈ l, x ≤ k) → l.getLast? = some k := by
  intro l
  induction l with
  | nil => intro _ _ k hk; simp at hk
  | cons a rest ih =>
    intro hs hn k hk hub
    cases rest with
    | nil => simp at hk; simp [hk]
    | cons b rest2 =>
      rw [List.getLast?_cons_cons]
      have hk2 : k ∈ b :: rest2 := by
        rcases List.mem_cons.mp hk with hka | hkr
        · exfalso
          have hab : a ≤ b := (List.sorted_cons.mp hs).1 b (by simp)
          have hba : b ≤ k := hub b (by simp)
          have hba2 : b = a := le_antisymm (hka ▸ hba) hab
          exact (List.nodup_cons.mp hn).1
            (by rw [← hba2]; exact List.mem_cons_self b rest2)
        · exact hkr
      exact ih (List.sorted_cons.mp hs).2 (List.nodup_cons.mp hn).2 k hk2
        (fun x hx => hub x (List.mem_cons_of_mem a hx))

/-- Association-list lookup finds the value of a member pair when the
keys are duplicate-free. -/
theorem lookup_eq_some_of_mem (k : Int) (v : PyVal) :
    ∀ (m : List (Int × PyVal)), (m.map Prod.fst).Nodup → (k, v) ∈ m →
      m.lookup k = some v := by
  intro m
  induction m with
  | nil => intro _ h; simp at h
  | cons p rest ih =>
    intro hn hm
    obtain ⟨k1, v1⟩ := p
    by_cases h : k = k1
    · subst h
      rcases List.mem_cons.mp hm with hh | hr
      · simp at hh
        simp [List.lookup, hh]
      · exfalso
        have : k ∈ rest.map Prod.fst := List.mem_map.mpr ⟨(k, v), hr, rfl⟩
        exact (List.nodup_cons.mp (by simpa using hn)).1 this
    · have hr : (k, v) ∈ rest := by
        rcases List.mem_cons.mp hm with hh | hr
        · exact absurd (congrArg Prod.fst hh) h
        · exact hr
      have : (k == k1) = false := beq_false_of_ne h
      simp [List.lookup, this]
      exact ih (by simpa using (List.nodup_cons.mp (by simpa using hn)).2) hr

/-- The `maxRun` scan resolves to the lookup of the largest threshold
`k` with `run <= k`, when the threshold keys are duplicate-free. -/
theorem maxRunScan_eq_of_max (run : Int) (m : List (Int × PyVal)) (k : Int) (v : PyVal)
    (hnodup : (m.map Prod.fst).Nodup)
    (hkv : (k, v) ∈ m)
    (hrun : run ≤ k)
    (hmax : ∀ p ∈ m, run ≤ p.1 → p.1 ≤ k) :
    maxRunScan run m = some v := by
  unfold maxRunScan
  rw [foldl_overwrite]
  have hperm : (List.insertionSort (fun a b => a ≤ b) (m.map Prod.fst)).Perm (m.map Prod.fst) :=
    List.perm_insertionSort _ _
  have hsorted : (List.insertionSort (fun a b => a ≤ b) (m.map Prod.fst)).Sorted
      (fun a b => a ≤ b) := List.sorted_insertionSort _ _
  have hlast : ((List.insertionSort (fun a b => a ≤ b) (m.map Prod.fst)).filter
      (fun x => decide (run ≤ x))).getLast? = some k := by
    apply getLast?_eq_of_sorted_max
    · exact List.Pairwise.filter _ hsorted
    · exact List.Nodup.filter _ (hperm.nodup_iff.mpr hnodup)
    · refine List.mem_filter.mpr ⟨?_, by simpa using hrun⟩
      exact hperm.mem_iff.mpr (List.mem_map.mpr ⟨(k, v), hkv, rfl⟩)
    · intro x hx
      have hx2 := List.mem_filter.mp hx
      have hxm : x ∈ m.map Prod.fst := hperm.mem_iff.mp hx2.1
      obtain ⟨p, hp, hpx⟩ := List.mem_map.mp hxm
      exact hpx ▸ hmax p hp (hpx ▸ (by simpa using hx2.2))
  rw [hlast]
  exact lookup_eq_some_of_mem k v m hnodup hkv

/-- The `maxRun` scan leaves the accumulator at `None` when no
threshold satisfies `run <= threshold`. -/
theorem maxRunScan_eq_none (run : Int) (m : List (Int × PyVal))
    (hnone : ∀ p ∈ m, ¬ run ≤ p.1) :
    maxRunScan run m = Option.none := by
  unfold maxRunScan
  rw [foldl_overwrite]
  have : (List.insertionSort (fun a b => a ≤ b) (m.map Prod.fst)).filter
      (fun x => decide (run ≤ x)) = [] := by
    apply List.filter_eq_nil_iff.mpr
    intro x hx
    have hxm : x ∈ m.map Prod.fst :=
      (List.perm_insertionSort (fun a b => a ≤ b) (m.map Prod.fst)).mem_iff.mp hx
    obtain ⟨p, hp, hpx⟩ := List.mem_map.mp hxm
    rw [← hpx]
    simpa using hnone p hp
  rw [this]
  rfl

/-- C1 (counterexample): resolving
`{default: "X", maxRun: {100: "A", 200: "B"}}` at run 150 returns "B",
not "A" as the claim states — the ascending scan keeps overwriting, so
the largest satisfying threshold wins. -/
theorem extractConfigParameter_smallest_threshold_counterexample :
    extractConfigParameter
      (.dict { acqEra := Option.none,
               maxRun := some [(100, .str "A"), (200, .str "B")],
               default := .str "X" }) "Run2023A" 150 ≠ .str "A" ∧
    extractConfigParameter
      (.dict { acqEra := Option.none,
               maxRun := some [(100, .str "A"), (200, .str "B")],
               default := .str "X" }) "Run2023A" 150 = .str "B" := by
  decide

/-- C1 (amended): for a dict configuration value with a `maxRun`
threshold mapping whose `acqEra` mapping (if any) does not contain the
current era, `extractConfigParameter` returns the value associated with
the largest threshold `t` satisfying `run <= t` (provided that value is
truthy), and returns the mandatory default when no threshold satisfies
`run <= t`; in particular `{default: "X", maxRun: {100: "A", 200: "B"}}`
resolves to "B" at run 150 and to "X" at run 250. -/
theorem extractConfigParameter_maxRun_largest
    (d : ParamDict) (era : String) (run : Int) (m : List (Int × PyVal))
    (hera : d.acqEra.bind (fun mm => mm.lookup era) = Option.none)
    (hm : d.maxRun = some m)
    (hnodup : (m.map Prod.fst).Nodup) :
    (∀ k v, (k, v) ∈ m → run ≤ k → (∀ p ∈ m, run ≤ p.1 → p.1 ≤ k) →
        v.truthy = true → extractConfigParameter (.dict d) era run = v) ∧
    ((∀ p ∈ m, ¬ run ≤ p.1) →
        extractConfigParameter (.dict d) era run = d.default) ∧
    extractConfigParameter
      (.dict { acqEra := Option.none,
               maxRun := some [(100, .str "A"), (200, .str "B")],
               default := .str "X" }) "Run2023A" 150 = .str "B" ∧
    extractConfigParameter
      (.dict { acqEra := Option.none,
               maxRun := some [(100, .str "A"), (200, .str "B")],
               default := .str "X" }) "Run2023A" 250 = .str "X" := by
  refine ⟨?_, ?_, by decide, by decide⟩
  · intro k v hkv hrun hmax htruthy
    simp only [extractConfigParameter]
    rw [hera, hm]
    simp [maxRunScan_eq_of_max run m k v hnodup hkv hrun hmax, htruthy]
  · intro hnone
    simp only [extractConfigParameter]
    rw [hera, hm]
    simp [maxRunScan_eq_none run m hnone]

/-- C1 (witness): the amended theorem applied to the concrete mapping
`{default: "X", maxRun: {100: "A", 200: "B"}}` at runs 150 and 250. -/
theorem extractConfigParameter_maxRun_largest_witness :
    extractConfigParameter
      (.dict { acqEra := Option.none,
               maxRun := some [(100, .str "A"), (200, .str "B")],
               default := .str "X" }) "Run2023A" 150 = .str "B" ∧
    extractConfigParameter
      (.dict { acqEra := Option.none,
               maxRun := some [(100, .str "A"), (200, .str "B")],
               default := .str "X" }) "Run2023A" 250 = .str "X" :=
  ⟨(extractConfigParameter_maxRun_largest
      { acqEra := Option.none,
        maxRun := some [(100, .str "A"), (200, .str "B")],
        default := .str "X" } "Run2023A" 150
      [(100, .str "A"), (200, .str "B")] rfl rfl (by decide)).1
      200 (.str "B") (by decide) (by decide) (by decide) (by decide),
   (extractConfigParameter_maxRun_largest
      { acqEra := Option.none,
        maxRun := some [(100, .str "A"), (200, .str "B")],
        default := .str "X" } "Run2023A" 250
      [(100, .str "A"), (200, .str "B")] rfl rfl (by decide)).2.1
      (by decide)⟩

/-- C8: a non-dict value is returned unchanged; a dict whose `acqEra`
mapping contains the current era resolves to that era's value, taking
precedence over everything else; with no era match and no `maxRun`
mapping the mandatory default is returned; in particular
`{default: "X", acqEra: {"Run2023A": "Y"}}` resolves to "Y" for era
"Run2023A" and to "X" for era "Run2023B". -/
theorem extractConfigParameter_scalar_era_default
    (v : PyVal) (era : String) (run : Int) (d : ParamDict) :
    extractConfigParameter (.scalar v) era run = v ∧
    (∀ m w, d.acqEra = some m → m.lookup era = some w →
        extractConfigParameter (.dict d) era run = w) ∧
    (d.acqEra.bind (fun mm => mm.lookup era) = Option.none →
        d.maxRun = Option.none →
        extractConfigParameter (.dict d) era run = d.default) ∧
    extractConfigParameter
      (.dict { acqEra := some [("Run2023A", .str "Y")],
               maxRun := Option.none,
               default := .str "X" }) "Run2023A" 0 = .str "Y" ∧
    extractConfigParameter
      (.dict { acqEra := some [("Run2023A", .str "Y")],
               maxRun := Option.none,
               default := .str "X" }) "Run2023B" 0 = .str "X" := by
  refine ⟨rfl, ?_, ?_, by decide, by decide⟩
  · intro m w hmm hw
    simp only [extractConfigParameter]
    rw [hmm]
    simp [hw]
  · intro hera hmr
    simp only [extractConfigParameter]
    rw [hera, hmr]

/-- C8 (witness): the theorem applied at a concrete scalar and a
concrete era-keyed dict. -/
theorem extractConfigParameter_scalar_era_default_witness :
    extractConfigParameter (.scalar (.int 42)) "Run2023A" 5 = .int 42 ∧
    extractConfigParameter
      (.dict { acqEra := some [("Run2023A", .str "Y")],
               maxRun := Option.none,
               default := .str "X" }) "Run2023A" 5 = .str "Y" ∧
    extractConfigParameter
      (.dict { acqEra := some [("Run2023A", .str "Y")],
               maxRun := Option.none,
               default := .str "X" }) "Run2023B" 5 = .str "X" :=
  ⟨(extractConfigParameter_scalar_era_default (.int 42) "Run2023A" 5
      { acqEra := some [("Run2023A", .str "Y")],
        maxRun := Option.none, default := .str "X" }).1,
   (extractConfigParameter_scalar_era_default (.int 42) "Run2023A" 5
      { acqEra := some [("Run2023A", .str "Y")],
        maxRun := Option.none, default := .str "X" }).2.1
      [("Run2023A", .str "Y")] (.str "Y") rfl (by decide),
   (extractConfigParameter_scalar_era_default (.int 42) "Run2023B" 5
      { acqEra := some [("Run2023A", .str "Y")],
        maxRun := Option.none, default := .str "X" }).2.2.1
      rfl rfl⟩

/-- C9: when the `maxRun` threshold scan selects a falsy value
(`None`, `0`, `False` or the empty string), `extractConfigParameter`
discards the match and returns the mandatory default instead. -/
theorem extractConfigParameter_falsy_match_default
    (d : ParamDict) (era : String) (run : Int) (m : List (Int × PyVal)) (v : PyVal)
    (hera : d.acqEra.bind (fun mm => mm.lookup era) = Option.none)
    (hm : d.maxRun = some m)
    (hscan : maxRunScan run m = some v)
    (hfalsy : v.truthy = false) :
    extractConfigParameter (.dict d) era run = d.default := by
  simp only [extractConfigParameter]
  rw [hera, hm]
  simp [hscan, hfalsy]

/-- C9 (witness): a threshold match whose value is the empty string is
discarded in favour of the default. -/
theorem extractConfigParameter_falsy_match_default_witness :
    extractConfigParameter
      (.dict { acqEra := Option.none,
               maxRun := some [(100, .str "")],
               default := .str "X" }) "Run2023A" 50 = .str "X" :=
  extractConfigParameter_falsy_match_default
    { acqEra := Option.none, maxRun := some [(100, .str "")],
      default := .str "X" } "Run2023A" 50 [(100, .str "")] (.str "")
    rfl rfl (by decide) (by decide)

/-- The WMBS tables read by `GetUsedLumis.execute`: the per-subscription
file-state tables (rows `(subscription, fileid)`) and the
file-to-run-lumi map (rows `(fileid, lumi)`). -/
structure WMBSFilesDb where
  acquired : List (Nat × Nat)
  complete : List (Nat × Nat)
  failed : List (Nat × Nat)
  runlumiMap : List (Nat × Nat)

/-- One of the three SQL queries of `GetUsedLumis.execute`: select the
lumis of the run-lumi map joined against the rows of `stateRows` whose
subscription column matches. -/
def lumiQuery (stateRows : List (Nat × Nat)) (runlumiMap : List (Nat × Nat))
    (subscription : Nat) : List Nat :=
  (stateRows.filter (fun r => r.1 = subscription)).flatMap
    (fun r => (runlumiMap.filter (fun q => q.1 = r.2)).map Prod.snd)

/-- Embedding of `GetUsedLumis.execute`
(`GetUsedLumis.py` lines 13-58): start from the empty set and add the
lumis returned by the acquired, complete and failed queries in turn. -/
def getUsedLumis (db : WMBSFilesDb) (subscription : Nat) : Finset Nat :=
  let s1 := (lumiQuery db.acquired db.runlumiMap subscription).foldl
    (fun s l => insert l s) (∅ : Finset Nat)
  let s2 := (lumiQuery db.complete db.runlumiMap subscription).foldl
    (fun s l => insert l s) s1
  (lumiQuery db.failed db.runlumiMap subscription).foldl
    (fun s l => insert l s) s2

/-- Membership in a fold of `Finset.insert` over a list is membership
in the list or in the initial set. -/
theorem mem_foldl_insert (xs : List Nat) :
    ∀ (s : Finset Nat) (x : Nat),
      x ∈ xs.foldl (fun s l => insert l s) s ↔ x ∈ xs ∨ x ∈ s := by
  induction xs with
  | nil => intro s x; simp
  | cons a rest ih =>
    intro s x
    rw [List.foldl_cons, ih]
    simp [Finset.mem_insert]
    tauto

/-- Membership in a `lumiQuery` result is witnessed by a file in the
state table for the subscription that carries the lumi. -/
theorem mem_lumiQuery (stateRows runlumiMap : List (Nat × Nat))
    (subscription : Nat) (l : Nat) :
    l ∈ lumiQuery stateRows runlumiMap subscription ↔
      ∃ f, (subscription, f) ∈ stateRows ∧ (f, l) ∈ runlumiMap := by
  unfold lumiQuery
  simp only [List.mem_flatMap, List.mem_filter, List.mem_map, decide_eq_true_eq]
  constructor
  · intro h
    obtain ⟨r, ⟨hr, hs⟩, q, ⟨hq1, hq2⟩, hq3⟩ := h
    refine ⟨r.2, ?_, ?_⟩
    · rw [← hs]
      simpa using hr
    · rw [← hq2, ← hq3]
      simpa using hq1
  · intro h
    obtain ⟨f, hmem, hq⟩ := h
    exact ⟨(subscription, f), ⟨hmem, rfl⟩, (f, l), ⟨hq, rfl⟩, rfl⟩

/-- C10: `GetUsedLumis.execute` returns exactly the set union of the
lumi numbers mapped (through the file-to-run-lumi map) to the
subscription's acquired, complete and failed files (each lumi once,
the result being a set), and the empty set when the subscription has
no files in any of the three states. -/
theorem getUsedLumis_characterization (db : WMBSFilesDb) (subscription : Nat) :
    (∀ l, l ∈ getUsedLumis db subscription ↔
        ∃ f, ((subscription, f) ∈ db.acquired ∨ (subscription, f) ∈ db.complete ∨
              (subscription, f) ∈ db.failed) ∧ (f, l) ∈ db.runlumiMap) ∧
    ((∀ f, (subscription, f) ∉ db.acquired ∧ (subscription, f) ∉ db.complete ∧
        (subscription, f) ∉ db.failed) → getUsedLumis db subscription = ∅) := by
  have hmem : ∀ l, l ∈ getUsedLumis db subscription ↔
      ∃ f, ((subscription, f) ∈ db.acquired ∨ (subscription, f) ∈ db.complete ∨
            (subscription, f) ∈ db.failed) ∧ (f, l) ∈ db.runlumiMap := by
    intro l
    unfold getUsedLumis
    rw [mem_foldl_insert, mem_foldl_insert, mem_foldl_insert]
    simp only [Finset.not_mem_empty, or_false, mem_lumiQuery]
    constructor
    · rintro (⟨f, hf, hl⟩ | ⟨f, hf, hl⟩ | ⟨f, hf, hl⟩)
      · exact ⟨f, Or.inr (Or.inr hf), hl⟩
      · exact ⟨f, Or.inr (Or.inl hf), hl⟩
      · exact ⟨f, Or.inl hf, hl⟩
    · rintro ⟨f, hf | hf | hf, hl⟩
      · exact Or.inr (Or.inr ⟨f, hf, hl⟩)
      · exact Or.inr (Or.inl ⟨f, hf, hl⟩)
      · exact Or.inl ⟨f, hf, hl⟩
  refine ⟨hmem, fun hnone => ?_⟩
  apply Finset.eq_empty_iff_forall_not_mem.mpr
  intro l hl
  obtain ⟨f, hf, _⟩ := (hmem l).mp hl
  rcases hf with hf | hf | hf
  · exact (hnone f).1 hf
  · exact (hnone f).2.1 hf
  · exact (hnone f).2.2 hf

/-- C10 (witness): a concrete store where one lumi is reachable through
two states and two files yet appears once, and an unused subscription
yields the empty set. -/
theorem getUsedLumis_characterization_witness :
    (7 ∈ getUsedLumis
        { acquired := [(1, 10)], complete := [(1, 11)], failed := [],
          runlumiMap := [(10, 7), (11, 7), (11, 8)] } 1 ↔
      ∃ f, ((1, f) ∈ [(1, 10)] ∨ (1, f) ∈ [(1, 11)] ∨ (1, f) ∈ ([] : List (Nat × Nat))) ∧
        (f, 7) ∈ [(10, 7), (11, 7), (11, 8)]) ∧
    getUsedLumis
        { acquired := [(1, 10)], complete := [(1, 11)], failed := [],
          runlumiMap := [(10, 7), (11, 7), (11, 8)] } 2 = ∅ :=
  ⟨(getUsedLumis_characterization
      { acquired := [(1, 10)], complete := [(1, 11)], failed := [],
        runlumiMap := [(10, 7), (11, 7), (11, 8)] } 1).1 7,
   (getUsedLumis_characterization
      { acquired := [(1, 10)], complete := [(1, 11)], failed := [],
        runlumiMap := [(10, 7), (11, 7), (11, 8)] } 2).2 (by intro f; simp)⟩

/-- Memory spec argument of an Express stream workflow
(`configureRunStream`, `RunConfigAPI.py` lines 538-549): base plus
per-core memory, with the higher pair for the `HeavyIonsRun2` scenario,
plus `(multicore - 1)` extra per-core increments when a truthy multicore
count is configured. -/
def expressMemory (scenario : String) (multicore : Option Nat) : Nat :=
  let baseMemory := if scenario = "HeavyIonsRun2" then 3000 else 2000
  let perCoreMemory := if scenario = "HeavyIonsRun2" then 1300 else 900
  let memory := baseMemory + perCoreMemory
  match multicore with
  | some m => if m ≠ 0 then memory + (m - 1) * perCoreMemory else memory
  | Option.none => memory

/-- Memory spec argument of a PromptReco dataset workflow
(`releasePromptReco`, `RunConfigAPI.py` lines 938-951): same base and
per-core rule as Express, plus 100 per configured physics skim. -/
def promptRecoMemory (scenario : String) (multicore : Option Nat)
    (physicsSkims : List String) : Nat :=
  let baseMemory := if scenario = "HeavyIonsRun2" then 3000 else 2000
  let perCoreMemory := if scenario = "HeavyIonsRun2" then 1300 else 900
  let memory := baseMemory + perCoreMemory
  let memory2 :=
    match multicore with
    | some m => if m ≠ 0 then memory + (m - 1) * perCoreMemory else memory
    | Option.none => memory
  memory2 + physicsSkims.length * 100

/-- C4 (counterexample): a PromptReco dataset workflow with one physics
skim, 4 cores and a non-heavy-ion scenario gets Memory 5700, not the
5600 that `baseMemory + perCoreMemory * requestedCores` predicts — the
secondary pass does not use exactly the same rule as the Express pass. -/
theorem promptRecoMemory_not_express_rule_counterexample :
    promptRecoMemory "ppRun2" (some 4) ["SingleMuon"] ≠ 2000 + 900 * 4 ∧
    promptRecoMemory "ppRun2" (some 4) ["SingleMuon"] = 5700 := by
  decide

/-- C4 (amended): an Express stream workflow with a truthy requested
core count gets Memory equal to `baseMemory + perCoreMemory * cores`,
where the pair is `(3000, 1300)` for the `HeavyIonsRun2` scenario and
`(2000, 900)` otherwise; a PromptReco dataset workflow uses the same
base and per-core rule but additionally adds 100 per configured physics
skim; in particular a heavy-ion Express stream with 4 requested cores
gets Memory `3000 + 1300 * 4 = 8200`. -/
theorem workflowMemory_rule (scenario : String) (m : Nat) (hm : m ≠ 0)
    (physicsSkims : List String) :
    expressMemory scenario (some m) =
      (if scenario = "HeavyIonsRun2" then 3000 else 2000) +
        (if scenario = "HeavyIonsRun2" then 1300 else 900) * m ∧
    promptRecoMemory scenario (some m) physicsSkims =
      (if scenario = "HeavyIonsRun2" then 3000 else 2000) +
        (if scenario = "HeavyIonsRun2" then 1300 else 900) * m +
        physicsSkims.length * 100 ∧
    expressMemory "HeavyIonsRun2" (some 4) = 8200 := by
  refine ⟨?_, ?_, by decide⟩
  · unfold expressMemory
    simp only [hm, if_true, ite_not, if_neg]
    by_cases h : scenario = "HeavyIonsRun2" <;> simp [h] <;> omega
  · unfold promptRecoMemory
    simp only [hm, if_true, ite_not, if_neg]
    by_cases h : scenario = "HeavyIonsRun2" <;> simp [h] <;> omega

/-- C4 (witness): the amended rule evaluated for a heavy-ion scenario
with 4 cores and one physics skim. -/
theorem workflowMemory_rule_witness :
    expressMemory "HeavyIonsRun2" (some 4) = 3000 + 1300 * 4 ∧
    promptRecoMemory "HeavyIonsRun2" (some 4) ["SingleMuon"] =
      3000 + 1300 * 4 + 1 * 100 :=
  ⟨by rw [(workflowMemory_rule "HeavyIonsRun2" 4 (by decide) ["SingleMuon"]).1]; decide,
   by rw [(workflowMemory_rule "HeavyIonsRun2" 4 (by decide) ["SingleMuon"]).2.1]; decide⟩

/-- The rows accumulated by `configureRun` from the HLT
stream/dataset/trigger mapping (`RunConfigAPI.py` lines 97-123):
stream, dataset, stream-dataset, trigger and dataset-trigger binds. -/
structure RunBinds where
  streams : List String
  datasets : List String
  streamDatasets : List (Nat × String × String)
  triggers : List String
  datasetTriggers : List (Nat × String × String)
deriving DecidableEq, Repr

/-- The empty collection of binds `configureRun` starts from. -/
def RunBinds.empty : RunBinds :=
  { streams := [], datasets := [], streamDatasets := [],
    triggers := [], datasetTriggers := [] }

/-- Rows contributed by one assigned dataset entry of a stream's
mapping (`RunConfigAPI.py` lines 114-123). -/
def addDatasetBinds (run : Nat) (stream : String) (b : RunBinds)
    (dataset : String) (paths : List String) : RunBinds :=
  { b with
    datasets := b.datasets ++ [dataset],
    streamDatasets := b.streamDatasets ++ [(run, dataset, stream)],
    triggers := b.triggers ++ paths,
    datasetTriggers := b.datasetTriggers ++ paths.map (fun p => (run, p, dataset)) }

/-- The fatal error raised by `configureRun` on an unassigned path in
the HLT menu. -/
def unassignedPathError : String :=
  "Problem in configureRun() : Unassigned path in HLT menu !"

/-- The inner dataset loop of `configureRun` (`RunConfigAPI.py` lines
105-123): an entry named "Unassigned path" is skipped for runs below
240000 and raises for runs at or above it; other entries contribute
their dataset, stream-dataset and trigger rows. -/
def processDatasets (run : Nat) (stream : String) (b : RunBinds) :
    List (String × List String) → Except String RunBinds
  | [] => .ok b
  | (dataset, paths) :: rest =>
    if dataset = "Unassigned path" then
      if run < 240000 then processDatasets run stream b rest
      else .error unassignedPathError
    else processDatasets run stream (addDatasetBinds run stream b dataset paths) rest

/-- The outer stream loop of `configureRun` (`RunConfigAPI.py` lines
103-123): each stream contributes its stream row, then its dataset
entries; a raised error aborts everything. -/
def processStreams (run : Nat) (b : RunBinds) :
    List (String × List (String × List String)) → Except String RunBinds
  | [] => .ok b
  | (stream, datasetDict) :: rest =>
    match processDatasets run stream { b with streams := b.streams ++ [stream] }
        datasetDict with
    | .ok b2 => processStreams run b2 rest
    | .error e => .error e

/-- Bind accumulation of `configureRun` over the whole HLT mapping. -/
def buildRunBinds (run : Nat)
    (mapping : List (String × List (String × List String))) :
    Except String RunBinds :=
  processStreams run RunBinds.empty mapping

/-- The same HLT mapping with every "Unassigned path" entry removed. -/
def filterAssigned (mapping : List (String × List (String × List String))) :
    List (String × List (String × List String)) :=
  mapping.map (fun sd => (sd.1, sd.2.filter (fun e => e.1 ≠ "Unassigned path")))

/-- The dataset loop only ever raises the unassigned-path error. -/
theorem processDatasets_error_eq (run : Nat) (stream : String) :
    ∀ (entries : List (String × List String)) (b : RunBinds) (e : String),
      processDatasets run stream b entries = .error e → e = unassignedPathError := by
  intro entries
  induction entries with
  | nil => intro b e h; simp [processDatasets] at h
  | cons entry rest ih =>
    intro b e h
    obtain ⟨dataset, paths⟩ := entry
    by_cases hd : dataset = "Unassigned path"
    · by_cases hr : run < 240000
      · rw [processDatasets, if_pos hd, if_pos hr] at h
        exact ih b e h
      · rw [processDatasets, if_pos hd, if_neg hr] at h
        exact (Except.error.injEq _ _).mp h |>.symm
    · rw [processDatasets, if_neg hd] at h
      exact ih _ e h

/-- At or past the cutover run, an unassigned-path entry makes the
dataset loop raise. -/
theorem processDatasets_unassigned_raises (run : Nat) (stream : String)
    (hrun : 240000 ≤ run) :
    ∀ (entries : List (String × List String)) (b : RunBinds),
      (∃ e ∈ entries, e.1 = "Unassigned path") →
      processDatasets run stream b entries = .error unassignedPathError := by
  intro entries
  induction entries with
  | nil => intro b h; simp at h
  | cons entry rest ih =>
    intro b h
    obtain ⟨dataset, paths⟩ := entry
    by_cases hd : dataset = "Unassigned path"
    · rw [processDatasets, if_pos hd, if_neg (by omega)]
    · rw [processDatasets, if_neg hd]
      apply ih
      rcases h with ⟨e, he, hname⟩
      rcases List.mem_cons.mp he with rfl | hr
      · exact absurd hname hd
      · exact ⟨e, hr, hname⟩

/-- Below the cutover run, the dataset loop never raises. -/
theorem processDatasets_below_ok (run : Nat) (stream : String)
    (hrun : run < 240000) :
    ∀ (entries : List (String × List String)) (b : RunBinds),
      ∃ b2, processDatasets run stream b entries = .ok b2 := by
  intro entries
  induction entries with
  | nil => intro b; exact ⟨b, rfl⟩
  | cons entry rest ih =>
    intro b
    obtain ⟨dataset, paths⟩ := entry
    by_cases hd : dataset = "Unassigned path"
    · rw [processDatasets, if_pos hd, if_pos hrun]
      exact ih b
    · rw [processDatasets, if_neg hd]
      exact ih _

/-- Below the cutover run, unassigned-path entries contribute nothing:
the dataset loop computes the same result on the filtered entries. -/
theorem processDatasets_below_filter (run : Nat) (stream : String)
    (hrun : run < 240000) :
    ∀ (entries : List (String × List String)) (b : RunBinds),
      processDatasets run stream b entries =
        processDatasets run stream b
          (entries.filter (fun e => e.1 ≠ "Unassigned path")) := by
  intro entries
  induction entries with
  | nil => intro b; rfl
  | cons entry rest ih =>
    intro b
    obtain ⟨dataset, paths⟩ := entry
    by_cases hd : dataset = "Unassigned path"
    · rw [processDatasets, if_pos hd, if_pos hrun, List.filter_cons,
        if_neg (by simp [hd])]
      exact ih b
    · rw [processDatasets, if_neg hd, List.filter_cons, if_pos (by simp [hd]),
        processDatasets, if_neg hd]
      exact ih _

/-- At or past the cutover run, any unassigned-path entry anywhere in
the mapping makes the whole bind accumulation raise. -/
theorem processStreams_unassigned_raises (run : Nat) (hrun : 240000 ≤ run) :
    ∀ (mapping : List (String × List (String × List String))) (b : RunBinds),
      (∃ sd ∈ mapping, ∃ e ∈ sd.2, e.1 = "Unassigned path") →
      processStreams run b mapping = .error unassignedPathError := by
  intro mapping
  induction mapping with
  | nil => intro b h; simp at h
  | cons sd rest ih =>
    intro b h
    obtain ⟨stream, datasetDict⟩ := sd
    rw [processStreams]
    rcases h with ⟨sd2, hsd2, e, he, hname⟩
    rcases List.mem_cons.mp hsd2 with rfl | hr
    · rw [processDatasets_unassigned_raises run stream hrun datasetDict _ ⟨e, he, hname⟩]
    · cases hres : processDatasets run stream
          { b with streams := b.streams ++ [stream] } datasetDict with
      | ok b2 => exact ih b2 ⟨sd2, hr, e, he, hname⟩
      | error err =>
        rw [processDatasets_error_eq run stream datasetDict _ err hres]

/-- Below the cutover run, the bind accumulation succeeds and equals
the accumulation over the mapping with all unassigned-path entries
removed. -/
theorem processStreams_below (run : Nat) (hrun : run < 240000) :
    ∀ (mapping : List (String × List (String × List String))) (b : RunBinds),
      processStreams run b mapping = processStreams run b (filterAssigned mapping) ∧
      ∃ b2, processStreams run b mapping = .ok b2 := by
  intro mapping
  induction mapping with
  | nil => intro b; exact ⟨rfl, b, rfl⟩
  | cons sd rest ih =>
    intro b
    obtain ⟨stream, datasetDict⟩ := sd
    obtain ⟨b2, hb2⟩ := processDatasets_below_ok run stream hrun datasetDict
      { b with streams := b.streams ++ [stream] }
    have hfilter := processDatasets_below_filter run stream hrun datasetDict
      { b with streams := b.streams ++ [stream] }
    constructor
    · show processStreams run b ((stream, datasetDict) :: rest) =
        processStreams run b
          ((stream, datasetDict.filter (fun e => e.1 ≠ "Unassigned path")) ::
            filterAssigned rest)
      rw [processStreams, processStreams, hb2, ← hfilter, hb2]
      exact (ih b2).1
    · rw [processStreams, hb2]
      exact (ih b2).2

/-- C5: ingesting a run whose trigger mapping contains an entry under
the sentinel dataset name "Unassigned path" raises the fatal
configuration error when the run number is at or above the 240000
cutover, and below the cutover the entry is silently skipped — the
accumulated binds equal those of the mapping with the sentinel entries
removed, and ingestion succeeds. -/
theorem configureRun_unassigned_path (run : Nat)
    (mapping : List (String × List (String × List String))) :
    (240000 ≤ run → (∃ sd ∈ mapping, ∃ e ∈ sd.2, e.1 = "Unassigned path") →
        buildRunBinds run mapping = .error unassignedPathError) ∧
    (run < 240000 →
        buildRunBinds run mapping = buildRunBinds run (filterAssigned mapping) ∧
        ∃ b, buildRunBinds run mapping = .ok b) := by
  constructor
  · intro hrun h
    exact processStreams_unassigned_raises run hrun mapping RunBinds.empty h
  · intro hrun
    exact processStreams_below run hrun mapping RunBinds.empty

/-- C5 (witness): a concrete mapping with an unassigned path raises at
run 240000 and is skipped at run 239999. -/
theorem configureRun_unassigned_path_witness :
    buildRunBinds 240000
        [("A", [("Unassigned path", ["p1"]), ("DS", ["p2"])])] =
      .error unassignedPathError ∧
    buildRunBinds 239999
        [("A", [("Unassigned path", ["p1"]), ("DS", ["p2"])])] =
      buildRunBinds 239999
        (filterAssigned [("A", [("Unassigned path", ["p1"]), ("DS", ["p2"])])]) :=
  ⟨(configureRun_unassigned_path 240000
      [("A", [("Unassigned path", ["p1"]), ("DS", ["p2"])])]).1
      (by decide)
      ⟨("A", [("Unassigned path", ["p1"]), ("DS", ["p2"])]), by decide,
        ("Unassigned path", ["p1"]), by decide, rfl⟩,
   ((configureRun_unassigned_path 239999
      [("A", [("Unassigned path", ["p1"]), ("DS", ["p2"])])]).2
      (by decide)).1⟩

/-- A PhEDEx subscription request dict as assembled in
`RunConfigAPI.py`.  Keys missing from a given dict literal are `none`;
site lists hold `Option String` because the Python lists may contain
`None` (`[phedexConfig['disk_node']]`). -/
structure Subscription where
  custodialSites : Option (List (Option String))
  custodialSubType : Option String
  custodialGroup : Option String
  nonCustodialSites : Option (List (Option String))
  nonCustodialSubType : Option String
  nonCustodialGroup : Option String
  autoApproveSites : List (Option String)
  priority : String
  primaryDataset : String
  useSkim : Option Bool
  isSkim : Option Bool
  deleteFromSource : Bool
  dataTier : Option String
deriving DecidableEq, Repr

/-- Dual-placement request for a tier on both tape and disk
(`releasePromptReco`, `RunConfigAPI.py` lines 834-847). -/
def mkDualSub (dataset tapeNode : String) (diskNode : Option String)
    (tier : String) : Subscription :=
  { custodialSites := some [some tapeNode], custodialSubType := some "Replica",
    custodialGroup := some "DataOps",
    nonCustodialSites := some [diskNode], nonCustodialSubType := some "Replica",
    nonCustodialGroup := some "AnalysisOps",
    autoApproveSites := [diskNode], priority := "high",
    primaryDataset := dataset, useSkim := some true, isSkim := some false,
    deleteFromSource := true, dataTier := some tier }

/-- Skim-tier request: dual placement with `isSkim` set and an empty
disk side when no disk node exists (`RunConfigAPI.py` lines 849-862). -/
def mkSkimSub (dataset tapeNode : String) (diskNode : Option String)
    (tier : String) : Subscription :=
  { custodialSites := some [some tapeNode], custodialSubType := some "Replica",
    custodialGroup := some "DataOps",
    nonCustodialSites := some (if diskNode.isSome then [diskNode] else []),
    nonCustodialSubType := some "Replica",
    nonCustodialGroup := some "AnalysisOps",
    autoApproveSites := if diskNode.isSome then [diskNode] else [],
    priority := "high", primaryDataset := dataset,
    useSkim := some true, isSkim := some true,
    deleteFromSource := true, dataTier := some tier }

/-- Tape-only request for a tier going to tape but not disk
(`RunConfigAPI.py` lines 864-874). -/
def mkTapeOnlySub (dataset tapeNode tier : String) : Subscription :=
  { custodialSites := some [some tapeNode], custodialSubType := some "Replica",
    custodialGroup := some "DataOps",
    nonCustodialSites := Option.none, nonCustodialSubType := Option.none,
    nonCustodialGroup := Option.none,
    autoApproveSites := [], priority := "high", primaryDataset := dataset,
    useSkim := some true, isSkim := some false,
    deleteFromSource := true, dataTier := some tier }

/-- Alignment/calibration-tier request: custodial-only with `isSkim`
set (`RunConfigAPI.py` lines 876-886). -/
def mkAlcaSub (dataset tapeNode tier : String) : Subscription :=
  { custodialSites := some [some tapeNode], custodialSubType := some "Replica",
    custodialGroup := some "DataOps",
    nonCustodialSites := Option.none, nonCustodialSubType := Option.none,
    nonCustodialGroup := Option.none,
    autoApproveSites := [], priority := "high", primaryDataset := dataset,
    useSkim := some true, isSkim := some true,
    deleteFromSource := true, dataTier := some tier }

/-- Disk-only request for a tier going to disk but not tape
(`RunConfigAPI.py` lines 888-898). -/
def mkDiskOnlySub (dataset : String) (diskNode : Option String)
    (tier : String) : Subscription :=
  { custodialSites := Option.none, custodialSubType := Option.none,
    custodialGroup := Option.none,
    nonCustodialSites := some [diskNode], nonCustodialSubType := some "Replica",
    nonCustodialGroup := some "AnalysisOps",
    autoApproveSites := [diskNode], priority := "high",
    primaryDataset := dataset, useSkim := some true, isSkim := some false,
    deleteFromSource := true, dataTier := some tier }

/-- Archival request when no tape node is configured
(`RunConfigAPI.py` lines 900-911). -/
def mkArchivalSub (dataset archivalNode tier : String) : Subscription :=
  { custodialSites := some [some archivalNode],
    custodialSubType := some "Replica", custodialGroup := some "DataOps",
    nonCustodialSites := Option.none, nonCustodialSubType := Option.none,
    nonCustodialGroup := Option.none,
    autoApproveSites := [some archivalNode], priority := "high",
    primaryDataset := dataset, useSkim := Option.none, isSkim := Option.none,
    deleteFromSource := true, dataTier := some tier }

/-- Embedding of the replica-placement computation of
`releasePromptReco` (`RunConfigAPI.py` lines 829-911): the tier
category sets and available storage nodes determine a multiset of
subscription requests (the Python `for tier in set` iteration order is
unspecified, so the output is a multiset). -/
def recoPlacement (dataset : String) (tapeTiers diskTiers skimTiers alcaTiers : Finset String)
    (tapeNode diskNode archivalNode : Option String) : Multiset Subscription :=
  match tapeNode with
  | some tnode =>
    let diskTiers2 := if diskNode = Option.none then (∅ : Finset String) else diskTiers
    (tapeTiers ∩ diskTiers2).val.map (mkDualSub dataset tnode diskNode) +
      skimTiers.val.map (mkSkimSub dataset tnode diskNode) +
      (tapeTiers \ diskTiers2).val.map (mkTapeOnlySub dataset tnode) +
      alcaTiers.val.map (mkAlcaSub dataset tnode) +
      (diskTiers2 \ tapeTiers).val.map (mkDiskOnlySub dataset diskNode)
  | Option.none =>
    match archivalNode with
    | some anode =>
      (tapeTiers ∪ diskTiers ∪ skimTiers ∪ alcaTiers).val.map
        (mkArchivalSub dataset anode)
    | Option.none => 0



/-- Counting the image of a tier in a piece built by mapping an
injective request constructor over a tier set: one when the tier is in
the set, zero otherwise. -/
theorem count_map_inj {f : String → Subscription} (hinj : Function.Injective f)
    (s : Finset String) (tier : String) :
    (s.val.map f).count (f tier) = if tier ∈ s then 1 else 0 := by
  rw [Multiset.count_map_eq_count' f s.val hinj tier]
  exact Multiset.count_eq_of_nodup s.nodup

/-- A request that no constructor application can produce is not
counted in the corresponding piece. -/
theorem count_map_ne {f : String → Subscription} {x : Subscription}
    (h : ∀ b, f b ≠ x) (s : Multiset String) : (s.map f).count x = 0 :=
  Multiset.count_eq_zero.mpr (fun hx => by
    obtain ⟨b, _, hb⟩ := Multiset.mem_map.mp hx
    exact h b hb)

theorem mkDualSub_inj (d t : String) (dn : Option String) :
    Function.Injective (mkDualSub d t dn) := by
  intro x y h
  have := congrArg Subscription.dataTier h
  simpa [mkDualSub] using this

theorem mkSkimSub_inj (d t : String) (dn : Option String) :
    Function.Injective (mkSkimSub d t dn) := by
  intro x y h
  have := congrArg Subscription.dataTier h
  simpa [mkSkimSub] using this

theorem mkTapeOnlySub_inj (d t : String) :
    Function.Injective (mkTapeOnlySub d t) := by
  intro x y h
  have := congrArg Subscription.dataTier h
  simpa [mkTapeOnlySub] using this

theorem mkAlcaSub_inj (d t : String) :
    Function.Injective (mkAlcaSub d t) := by
  intro x y h
  have := congrArg Subscription.dataTier h
  simpa [mkAlcaSub] using this

theorem mkDiskOnlySub_inj (d : String) (dn : Option String) :
    Function.Injective (mkDiskOnlySub d dn) := by
  intro x y h
  have := congrArg Subscription.dataTier h
  simpa [mkDiskOnlySub] using this

theorem mkArchivalSub_inj (d a : String) :
    Function.Injective (mkArchivalSub d a) := by
  intro x y h
  have := congrArg Subscription.dataTier h
  simpa [mkArchivalSub] using this

/-- Placement counts when both a tape and a disk node are configured. -/
theorem recoPlacement_tape_and_disk (d t dn : String)
    (tape disk skim alca : Finset String) (arch : Option String) :
    (∀ tier,
      (recoPlacement d tape disk skim alca (some t) (some dn) arch).count
          (mkDualSub d t (some dn) tier) = (if tier ∈ tape ∩ disk then 1 else 0) ∧
      (recoPlacement d tape disk skim alca (some t) (some dn) arch).count
          (mkSkimSub d t (some dn) tier) = (if tier ∈ skim then 1 else 0) ∧
      (recoPlacement d tape disk skim alca (some t) (some dn) arch).count
          (mkTapeOnlySub d t tier) = (if tier ∈ tape \ disk then 1 else 0) ∧
      (recoPlacement d tape disk skim alca (some t) (some dn) arch).count
          (mkAlcaSub d t tier) = (if tier ∈ alca then 1 else 0) ∧
      (recoPlacement d tape disk skim alca (some t) (some dn) arch).count
          (mkDiskOnlySub d (some dn) tier) = (if tier ∈ disk \ tape then 1 else 0)) ∧
    Multiset.card (recoPlacement d tape disk skim alca (some t) (some dn) arch) =
      (tape ∩ disk).card + skim.card + (tape \ disk).card + alca.card +
        (disk \ tape).card := by
  have hP : recoPlacement d tape disk skim alca (some t) (some dn) arch =
      (tape ∩ disk).val.map (mkDualSub d t (some dn)) +
        skim.val.map (mkSkimSub d t (some dn)) +
        (tape \ disk).val.map (mkTapeOnlySub d t) +
        alca.val.map (mkAlcaSub d t) +
        (disk \ tape).val.map (mkDiskOnlySub d (some dn)) := by
    simp [recoPlacement]
  constructor
  · intro tier
    refine ⟨?_, ?_, ?_, ?_, ?_⟩
    · rw [hP]
      simp only [Multiset.count_add]
      rw [count_map_inj (mkDualSub_inj d t (some dn)) (tape ∩ disk) tier,
        count_map_ne (fun b => by simp [mkSkimSub, mkDualSub]) skim.val,
        count_map_ne (fun b => by simp [mkTapeOnlySub, mkDualSub]) (tape \ disk).val,
        count_map_ne (fun b => by simp [mkAlcaSub, mkDualSub]) alca.val,
        count_map_ne (fun b => by simp [mkDiskOnlySub, mkDualSub]) (disk \ tape).val]
      simp
    · rw [hP]
      simp only [Multiset.count_add]
      rw [count_map_inj (mkSkimSub_inj d t (some dn)) skim tier,
        count_map_ne (fun b => by simp [mkDualSub, mkSkimSub]) (tape ∩ disk).val,
        count_map_ne (fun b => by simp [mkTapeOnlySub, mkSkimSub]) (tape \ disk).val,
        count_map_ne (fun b => by simp [mkAlcaSub, mkSkimSub]) alca.val,
        count_map_ne (fun b => by simp [mkDiskOnlySub, mkSkimSub]) (disk \ tape).val]
      simp
    · rw [hP]
      simp only [Multiset.count_add]
      rw [count_map_inj (mkTapeOnlySub_inj d t) (tape \ disk) tier,
        count_map_ne (fun b => by simp [mkDualSub, mkTapeOnlySub]) (tape ∩ disk).val,
        count_map_ne (fun b => by simp [mkSkimSub, mkTapeOnlySub]) skim.val,
        count_map_ne (fun b => by simp [mkAlcaSub, mkTapeOnlySub]) alca.val,
        count_map_ne (fun b => by simp [mkDiskOnlySub, mkTapeOnlySub]) (disk \ tape).val]
      simp
    · rw [hP]
      simp only [Multiset.count_add]
      rw [count_map_inj (mkAlcaSub_inj d t) alca tier,
        count_map_ne (fun b => by simp [mkDualSub, mkAlcaSub]) (tape ∩ disk).val,
        count_map_ne (fun b => by simp [mkSkimSub, mkAlcaSub]) skim.val,
        count_map_ne (fun b => by simp [mkTapeOnlySub, mkAlcaSub]) (tape \ disk).val,
        count_map_ne (fun b => by simp [mkDiskOnlySub, mkAlcaSub]) (disk \ tape).val]
      simp
    · rw [hP]
      simp only [Multiset.count_add]
      rw [count_map_inj (mkDiskOnlySub_inj d (some dn)) (disk \ tape) tier,
        count_map_ne (fun b => by simp [mkDualSub, mkDiskOnlySub]) (tape ∩ disk).val,
        count_map_ne (fun b => by simp [mkSkimSub, mkDiskOnlySub]) skim.val,
        count_map_ne (fun b => by simp [mkTapeOnlySub, mkDiskOnlySub]) (tape \ disk).val,
        count_map_ne (fun b => by simp [mkAlcaSub, mkDiskOnlySub]) alca.val]
      simp
  · rw [hP]
    simp only [Multiset.card_add, Multiset.card_map]
    rfl

/-- Placement counts when a tape node but no disk node is configured:
the disk tier set collapses to empty. -/
theorem recoPlacement_tape_no_disk (d t : String)
    (tape disk skim alca : Finset String) (arch : Option String) :
    (∀ tier,
      (recoPlacement d tape disk skim alca (some t) Option.none arch).count
          (mkSkimSub d t Option.none tier) = (if tier ∈ skim then 1 else 0) ∧
      (recoPlacement d tape disk skim alca (some t) Option.none arch).count
          (mkTapeOnlySub d t tier) = (if tier ∈ tape then 1 else 0) ∧
      (recoPlacement d tape disk skim alca (some t) Option.none arch).count
          (mkAlcaSub d t tier) = (if tier ∈ alca then 1 else 0)) ∧
    Multiset.card (recoPlacement d tape disk skim alca (some t) Option.none arch) =
      skim.card + tape.card + alca.card := by
  have hP : recoPlacement d tape disk skim alca (some t) Option.none arch =
      skim.val.map (mkSkimSub d t Option.none) +
        tape.val.map (mkTapeOnlySub d t) +
        alca.val.map (mkAlcaSub d t) := by
    simp [recoPlacement]
  constructor
  · intro tier
    refine ⟨?_, ?_, ?_⟩
    · rw [hP]
      simp only [Multiset.count_add]
      rw [count_map_inj (mkSkimSub_inj d t Option.none) skim tier,
        count_map_ne (fun b => by simp [mkTapeOnlySub, mkSkimSub]) tape.val,
        count_map_ne (fun b => by simp [mkAlcaSub, mkSkimSub]) alca.val]
      simp
    · rw [hP]
      simp only [Multiset.count_add]
      rw [count_map_inj (mkTapeOnlySub_inj d t) tape tier,
        count_map_ne (fun b => by simp [mkSkimSub, mkTapeOnlySub]) skim.val,
        count_map_ne (fun b => by simp [mkAlcaSub, mkTapeOnlySub]) alca.val]
      simp
    · rw [hP]
      simp only [Multiset.count_add]
      rw [count_map_inj (mkAlcaSub_inj d t) alca tier,
        count_map_ne (fun b => by simp [mkSkimSub, mkAlcaSub]) skim.val,
        count_map_ne (fun b => by simp [mkTapeOnlySub, mkAlcaSub]) tape.val]
      simp
  · rw [hP]
    simp only [Multiset.card_add, Multiset.card_map]
    rfl

/-- Placement counts when no tape node but an archival node is
configured: every tier in the union of the four categories gets one
custodial-only auto-approved request at the archival node. -/
theorem recoPlacement_archival (d a : String)
    (tape disk skim alca : Finset String) (dn2 : Option String) :
    (∀ tier,
      (recoPlacement d tape disk skim alca Option.none dn2 (some a)).count
          (mkArchivalSub d a tier) =
        (if tier ∈ tape ∪ disk ∪ skim ∪ alca then 1 else 0)) ∧
    Multiset.card (recoPlacement d tape disk skim alca Option.none dn2 (some a)) =
      (tape ∪ disk ∪ skim ∪ alca).card := by
  have hP : recoPlacement d tape disk skim alca Option.none dn2 (some a) =
      (tape ∪ disk ∪ skim ∪ alca).val.map (mkArchivalSub d a) := by
    simp [recoPlacement]
  constructor
  · intro tier
    rw [hP]
    exact count_map_inj (mkArchivalSub_inj d a) (tape ∪ disk ∪ skim ∪ alca) tier
  · rw [hP]
    simp only [Multiset.card_map]
    rfl

/-- Placement when neither a tape nor an archival node is configured:
no requests are produced. -/
theorem recoPlacement_no_nodes (d : String)
    (tape disk skim alca : Finset String) (dn2 : Option String) :
    recoPlacement d tape disk skim alca Option.none dn2 Option.none = 0 := by
  simp [recoPlacement]

/-- C2: the replica-placement computation of `releasePromptReco`.
With a tape node and a disk node, each tier in tape ∩ disk yields
exactly one dual custodial(tape)/non-custodial(disk) request
auto-approved at disk, each skim tier one such dual request flagged
`isSkim`, each tier in tape − disk one custodial-only request with
empty auto-approve, each alca tier one custodial-only `isSkim` request,
and each tier in disk − tape one non-custodial-only request
auto-approved at disk, with nothing else emitted.  With a tape node and
no disk node the disk tier set is treated as empty (skim requests keep
an empty disk side).  With no tape node but an archival node, every
tier in the union of the four categories yields one custodial-only
request at the archival node, auto-approved there.  With neither, no
requests are produced. -/
theorem releasePromptReco_placement (d t dn a : String)
    (tape disk skim alca : Finset String) (arch dn2 : Option String) :
    ((∀ tier,
      (recoPlacement d tape disk skim alca (some t) (some dn) arch).count
          (mkDualSub d t (some dn) tier) = (if tier ∈ tape ∩ disk then 1 else 0) ∧
      (recoPlacement d tape disk skim alca (some t) (some dn) arch).count
          (mkSkimSub d t (some dn) tier) = (if tier ∈ skim then 1 else 0) ∧
      (recoPlacement d tape disk skim alca (some t) (some dn) arch).count
          (mkTapeOnlySub d t tier) = (if tier ∈ tape \ disk then 1 else 0) ∧
      (recoPlacement d tape disk skim alca (some t) (some dn) arch).count
          (mkAlcaSub d t tier) = (if tier ∈ alca then 1 else 0) ∧
      (recoPlacement d tape disk skim alca (some t) (some dn) arch).count
          (mkDiskOnlySub d (some dn) tier) = (if tier ∈ disk \ tape then 1 else 0)) ∧
     Multiset.card (recoPlacement d tape disk skim alca (some t) (some dn) arch) =
       (tape ∩ disk).card + skim.card + (tape \ disk).card + alca.card +
         (disk \ tape).card) ∧
    ((∀ tier,
      (recoPlacement d tape disk skim alca (some t) Option.none arch).count
          (mkSkimSub d t Option.none tier) = (if tier ∈ skim then 1 else 0) ∧
      (recoPlacement d tape disk skim alca (some t) Option.none arch).count
          (mkTapeOnlySub d t tier) = (if tier ∈ tape then 1 else 0) ∧
      (recoPlacement d tape disk skim alca (some t) Option.none arch).count
          (mkAlcaSub d t tier) = (if tier ∈ alca then 1 else 0)) ∧
     Multiset.card (recoPlacement d tape disk skim alca (some t) Option.none arch) =
       skim.card + tape.card + alca.card) ∧
    ((∀ tier,
      (recoPlacement d tape disk skim alca Option.none dn2 (some a)).count
          (mkArchivalSub d a tier) =
        (if tier ∈ tape ∪ disk ∪ skim ∪ alca then 1 else 0)) ∧
     Multiset.card (recoPlacement d tape disk skim alca Option.none dn2 (some a)) =
       (tape ∪ disk ∪ skim ∪ alca).card) ∧
    recoPlacement d tape disk skim alca Option.none dn2 Option.none = 0 :=
  ⟨recoPlacement_tape_and_disk d t dn tape disk skim alca arch,
   recoPlacement_tape_no_disk d t tape disk skim alca arch,
   recoPlacement_archival d a tape disk skim alca dn2,
   recoPlacement_no_nodes d tape disk skim alca dn2⟩

/-- The custodial RAW request of `configureRunStream` for a Bulk
dataset (`RunConfigAPI.py` lines 427-435). -/
def mkBulkCustodialSub (dataset : String)
    (custodialSites custodialAutoApproveSites : List (Option String)) :
    Subscription :=
  { custodialSites := some custodialSites, custodialSubType := some "Replica",
    custodialGroup := some "DataOps",
    nonCustodialSites := Option.none, nonCustodialSubType := Option.none,
    nonCustodialGroup := Option.none,
    autoApproveSites := custodialAutoApproveSites, priority := "high",
    primaryDataset := dataset, useSkim := Option.none, isSkim := Option.none,
    deleteFromSource := true, dataTier := some "RAW" }

/-- The non-custodial RAW request of `configureRunStream` for a Bulk
dataset (`RunConfigAPI.py` lines 436-444). -/
def mkBulkNonCustodialSub (dataset : String)
    (nonCustodialSites nonCustodialAutoApproveSites : List (Option String)) :
    Subscription :=
  { custodialSites := Option.none, custodialSubType := Option.none,
    custodialGroup := Option.none,
    nonCustodialSites := some nonCustodialSites,
    nonCustodialSubType := some "Replica",
    nonCustodialGroup := some "AnalysisOps",
    autoApproveSites := nonCustodialAutoApproveSites, priority := "high",
    primaryDataset := dataset, useSkim := Option.none, isSkim := Option.none,
    deleteFromSource := true, dataTier := some "RAW" }

/-- The best-effort custodial request for the error partition of a Bulk
dataset when an archival node exists (`RunConfigAPI.py` lines 449-457). -/
def mkBulkErrorSub (dataset archivalNode : String) : Subscription :=
  { custodialSites := some [some archivalNode],
    custodialSubType := some "Replica", custodialGroup := some "DataOps",
    nonCustodialSites := Option.none, nonCustodialSubType := Option.none,
    nonCustodialGroup := Option.none,
    autoApproveSites := [some archivalNode], priority := "high",
    primaryDataset := dataset ++ "-Error", useSkim := Option.none,
    isSkim := Option.none, deleteFromSource := true, dataTier := some "RAW" }

/-- Embedding of the Bulk-dataset subscription construction of
`configureRunStream` (`RunConfigAPI.py` lines 411-457): the archival
node (when present) becomes a custodial auto-approved site, the tape
node a custodial site, the disk node a non-custodial auto-approved
site; one custodial request is emitted when custodial sites exist, one
non-custodial request when non-custodial sites exist, and one error
partition request when an archival node exists. -/
def bulkRawSubscriptions (dataset : String)
    (archivalNode tapeNode diskNode : Option String) : List Subscription :=
  let custodialSites :=
    (match archivalNode with | some x => [some x] | Option.none => []) ++
      (match tapeNode with | some x => [some x] | Option.none => [])
  let custodialAutoApproveSites :=
    match archivalNode with | some x => [some x] | Option.none => []
  let nonCustodialSites :=
    match diskNode with | some x => [some x] | Option.none => []
  let nonCustodialAutoApproveSites :=
    match diskNode with | some x => [some x] | Option.none => []
  (if custodialSites.length > 0 then
      [mkBulkCustodialSub dataset custodialSites custodialAutoApproveSites]
    else []) ++
    (if nonCustodialSites.length > 0 then
        [mkBulkNonCustodialSub dataset nonCustodialSites nonCustodialAutoApproveSites]
      else []) ++
    (match archivalNode with
      | some x => [mkBulkErrorSub dataset x]
      | Option.none => [])

/-- C3 (counterexample): with archival node "A", tape node "T" and no
disk node, the RAW primary-data subscriptions of `configureRunStream`
for dataset "D" differ from the §4.3 planner's requests for the same
assignment with RAW as the sole tier, and the archival node appears in
custodial placement even though a tape node is configured. -/
theorem configureRunStream_planner_counterexample :
    ((((bulkRawSubscriptions "D" (some "A") (some "T") Option.none).filter
        (fun s => s.primaryDataset = "D")) : Multiset Subscription) ≠
      recoPlacement "D" {"RAW"} {"RAW"} ∅ ∅ (some "T") Option.none (some "A")) ∧
    ∃ s ∈ (bulkRawSubscriptions "D" (some "A") (some "T") Option.none).filter
        (fun s => s.primaryDataset = "D"),
      s.custodialSites = some [some "A", some "T"] := by
  decide

/-- An error-partition name never equals the dataset's own name. -/
theorem errorPartition_ne (d : String) : ¬ (d ++ "-Error" = d) := by
  intro h
  have h2 := congrArg String.length h
  simp [String.length_append] at h2
  exact absurd h2 (by decide)

/-- C3 (amended): `configureRunStream` emits the Bulk RAW primary-data
subscriptions by its own rule rather than via the §4.3 planner: one
custodial request whenever an archival or tape node is configured,
whose custodial sites are the archival node (if any, auto-approved)
followed by the tape node (if any, not auto-approved), plus one
non-custodial request auto-approved at the disk node whenever a disk
node is configured — the archival node participates in custodial
placement whenever configured, even when a tape node is also
configured. -/
theorem configureRunStream_bulkRaw_rule (d A T D : String) :
    (bulkRawSubscriptions d (some A) (some T) (some D)).filter
        (fun s => s.primaryDataset = d) =
      [mkBulkCustodialSub d [some A, some T] [some A],
       mkBulkNonCustodialSub d [some D] [some D]] ∧
    (bulkRawSubscriptions d (some A) (some T) Option.none).filter
        (fun s => s.primaryDataset = d) =
      [mkBulkCustodialSub d [some A, some T] [some A]] ∧
    (bulkRawSubscriptions d (some A) Option.none (some D)).filter
        (fun s => s.primaryDataset = d) =
      [mkBulkCustodialSub d [some A] [some A],
       mkBulkNonCustodialSub d [some D] [some D]] ∧
    (bulkRawSubscriptions d (some A) Option.none Option.none).filter
        (fun s => s.primaryDataset = d) =
      [mkBulkCustodialSub d [some A] [some A]] ∧
    (bulkRawSubscriptions d Option.none (some T) (some D)).filter
        (fun s => s.primaryDataset = d) =
      [mkBulkCustodialSub d [some T] [],
       mkBulkNonCustodialSub d [some D] [some D]] ∧
    (bulkRawSubscriptions d Option.none (some T) Option.none).filter
        (fun s => s.primaryDataset = d) =
      [mkBulkCustodialSub d [some T] []] ∧
    (bulkRawSubscriptions d Option.none Option.none (some D)).filter
        (fun s => s.primaryDataset = d) =
      [mkBulkNonCustodialSub d [some D] [some D]] ∧
    (bulkRawSubscriptions d Option.none Option.none Option.none).filter
        (fun s => s.primaryDataset = d) = [] := by
  have hne := errorPartition_ne d
  refine ⟨?_, ?_, ?_, ?_, ?_, ?_, ?_, ?_⟩ <;>
    simp [bulkRawSubscriptions, mkBulkCustodialSub, mkBulkNonCustodialSub,
      mkBulkErrorSub, List.filter, hne]

/-- Modelled from the spec: the configuration store's transactional
contract (§6, "transactional key/value and relational access supporting
begin/commit/rollback") — the store itself is an external collaborator
(WMCore), not part of this repository's sources.  `committed` is the
durable state, `pending` the open transaction's buffer. -/
structure TxStore (α : Type) where
  committed : List α
  pending : Option (List α)
deriving DecidableEq, Repr

/-- Modelled from the spec: `begin` opens a transaction buffer
initialized from the committed state. -/
def txBegin {α : Type} (s : TxStore α) : TxStore α :=
  { s with pending := some s.committed }

/-- Modelled from the spec: a DAO execute call inside the transaction
appends its row to the pending buffer. -/
def txWrite {α : Type} (s : TxStore α) (w : α) : TxStore α :=
  { s with pending := s.pending.map (fun p => p ++ [w]) }

/-- Modelled from the spec: `rollback` discards the pending buffer,
leaving the committed state untouched. -/
def txRollback {α : Type} (s : TxStore α) : TxStore α :=
  { s with pending := Option.none }

/-- Modelled from the spec: `commit` makes the pending buffer the
committed state. -/
def txCommit {α : Type} (s : TxStore α) : TxStore α :=
  { committed := s.pending.getD s.committed, pending := Option.none }

/-- One transactional unit as written in `RunConfigAPI.py`
(`try: begin; writes... except: rollback; raise RuntimeError(msg)
else: commit`): each write is paired with a flag saying whether the
underlying DAO execute raises on it; the first raising write aborts the
unit, rolls back, and surfaces the fixed error message. -/
def runTxWrites {α : Type} (errMsg : String) :
    List (α × Bool) → TxStore α → TxStore α × Except String Unit
  | [], cur => (txCommit cur, .ok ())
  | (w, fails) :: rest, cur =>
    if fails then (txRollback cur, .error errMsg)
    else runTxWrites errMsg rest (txWrite cur w)

/-- A whole unit: begin, run the writes, commit or rollback. -/
def runTxUnit {α : Type} (errMsg : String) (writes : List (α × Bool))
    (s : TxStore α) : TxStore α × Except String Unit :=
  runTxWrites errMsg writes (txBegin s)

/-- The transaction of `configureRunStream` (`RunConfigAPI.py` lines
630-671): all configuration writes for one run/stream in a single unit
with the fixed failure message. -/
def configureRunStreamTx {α : Type} (run : Nat) (stream : String)
    (writes : List (α × Bool)) (s : TxStore α) :
    TxStore α × Except String Unit :=
  runTxUnit "Problem in configureRunStream() database transaction !" writes s

/-- The per-run release loop of `releasePromptReco` (`RunConfigAPI.py`
lines 726 and 1015-1037): one transaction per run batch, processed in
ascending run order; a failing batch rolls back, re-raises with the
fixed message and aborts the pass, leaving earlier runs' commits in
place. -/
def releasePromptRecoTx {α : Type} :
    List (Nat × List (α × Bool)) → TxStore α → TxStore α × Except String Unit
  | [], s => (s, .ok ())
  | (_, writes) :: rest, s =>
    match runTxUnit "Problem in releasePromptReco() database transaction !"
        writes s with
    | (s2, .ok _) => releasePromptRecoTx rest s2
    | (s2, .error e) => (s2, .error e)

/-- A unit whose writes all succeed commits exactly the previous
pending buffer extended by its writes. -/
theorem runTxWrites_ok {α : Type} (errMsg : String) :
    ∀ (writes : List (α × Bool)) (c p : List α),
      (∀ w ∈ writes, w.2 = false) →
      runTxWrites errMsg writes { committed := c, pending := some p } =
        ({ committed := p ++ writes.map Prod.fst, pending := Option.none }, .ok ()) := by
  intro writes
  induction writes with
  | nil => intro c p _; simp [runTxWrites, txCommit]
  | cons w rest ih =>
    intro c p hok
    obtain ⟨x, fails⟩ := w
    have hf : fails = false := hok (x, fails) (List.mem_cons_self _ _)
    subst hf
    rw [runTxWrites, if_neg (by simp)]
    show runTxWrites errMsg rest
        { committed := c, pending := some (p ++ [x]) } = _
    rw [ih c (p ++ [x]) (fun w hw => hok w (List.mem_cons_of_mem _ hw))]
    simp

/-- A unit containing a raising write rolls back: the committed state
is untouched, no transaction stays open, and the unit signals the fixed
error message. -/
theorem runTxWrites_fail {α : Type} (errMsg : String) :
    ∀ (writes : List (α × Bool)) (c : List α) (p : Option (List α)),
      (∃ w ∈ writes, w.2 = true) →
      runTxWrites errMsg writes { committed := c, pending := p } =
        ({ committed := c, pending := Option.none }, .error errMsg) := by
  intro writes
  induction writes with
  | nil => intro c p h; simp at h
  | cons w rest ih =>
    intro c p h
    obtain ⟨x, fails⟩ := w
    cases fails with
    | true => rw [runTxWrites, if_pos rfl]; rfl
    | false =>
      rw [runTxWrites, if_neg (by simp)]
      apply ih
      rcases h with ⟨w2, hw2, hfail⟩
      rcases List.mem_cons.mp hw2 with rfl | hr
      · simp at hfail
      · exact ⟨w2, hr, hfail⟩

/-- A release pass whose earlier batches all succeed and whose next
batch contains a raising write commits exactly the earlier batches'
writes, rolls the failing batch back and stops with the fixed error. -/
theorem releasePromptRecoTx_prefix_fail {α : Type} :
    ∀ (done : List (Nat × List (α × Bool))) (c : List α) (r : Nat)
      (fws : List (α × Bool)) (rest : List (Nat × List (α × Bool))),
      (∀ b ∈ done, ∀ w ∈ b.2, w.2 = false) →
      (∃ w ∈ fws, w.2 = true) →
      releasePromptRecoTx (done ++ (r, fws) :: rest)
          { committed := c, pending := Option.none } =
        ({ committed := c ++ (done.map (fun b => b.2.map Prod.fst)).flatten,
           pending := Option.none },
         .error "Problem in releasePromptReco() database transaction !") := by
  intro done
  induction done with
  | nil =>
    intro c r fws rest _ hfail
    show releasePromptRecoTx ((r, fws) :: rest) _ = _
    rw [releasePromptRecoTx]
    unfold runTxUnit txBegin
    rw [runTxWrites_fail _ fws c (some c) hfail]
    simp
  | cons b done2 ih =>
    intro c r fws rest hdone hfail
    obtain ⟨rn, bw⟩ := b
    show releasePromptRecoTx ((rn, bw) :: (done2 ++ (r, fws) :: rest)) _ = _
    rw [releasePromptRecoTx]
    unfold runTxUnit txBegin
    rw [runTxWrites_ok _ bw c c
      (fun w hw => hdone (rn, bw) (List.mem_cons_self _ _) w hw)]
    show releasePromptRecoTx (done2 ++ (r, fws) :: rest) _ = _
    rw [ih (c ++ bw.map Prod.fst) r fws rest
      (fun b hb => hdone b (List.mem_cons_of_mem _ hb)) hfail]
    simp

/-- C6: each `configureRunStream` invocation and each per-run release
batch of `releasePromptReco` is one transaction: a fully successful
unit commits all its writes at once; a unit with a raising write rolls
back, leaving the store exactly as before the unit began, and re-raises;
in `releasePromptReco` a failing run's rollback leaves the commits of
the runs processed earlier in the same pass in place. -/
theorem transactional_units_atomic {α : Type} (s : TxStore α)
    (hpend : s.pending = Option.none) (run : Nat) (stream : String)
    (ws : List (α × Bool)) (done : List (Nat × List (α × Bool))) (r : Nat)
    (fws : List (α × Bool)) (rest : List (Nat × List (α × Bool))) :
    ((∀ w ∈ ws, w.2 = false) →
      configureRunStreamTx run stream ws s =
        ({ committed := s.committed ++ ws.map Prod.fst,
           pending := Option.none }, .ok ())) ∧
    ((∃ w ∈ ws, w.2 = true) →
      configureRunStreamTx run stream ws s =
        (s, .error "Problem in configureRunStream() database transaction !")) ∧
    ((∀ b ∈ done, ∀ w ∈ b.2, w.2 = false) → (∃ w ∈ fws, w.2 = true) →
      releasePromptRecoTx (done ++ (r, fws) :: rest) s =
        ({ committed := s.committed ++
             (done.map (fun b => b.2.map Prod.fst)).flatten,
           pending := Option.none },
         .error "Problem in releasePromptReco() database transaction !")) := by
  obtain ⟨c, p⟩ := s
  simp only at hpend
  subst hpend
  refine ⟨?_, ?_, ?_⟩
  · intro hok
    unfold configureRunStreamTx runTxUnit txBegin
    rw [runTxWrites_ok _ ws c c hok]
  · intro hfail
    unfold configureRunStreamTx runTxUnit txBegin
    rw [runTxWrites_fail _ ws c (some c) hfail]
  · intro hdone hfail
    exact releasePromptRecoTx_prefix_fail done c r fws rest hdone hfail

/-- C6 (witness): a successful unit, a failing unit and a pass with a
committed first run and a failing second run, at concrete stores. -/
theorem transactional_units_atomic_witness :
    @configureRunStreamTx Nat 1 "A" [(10, false), (11, false)]
        { committed := [0], pending := Option.none } =
      ({ committed := [0, 10, 11], pending := Option.none }, .ok ()) ∧
    @configureRunStreamTx Nat 1 "A" [(10, false), (11, true)]
        { committed := [0], pending := Option.none } =
      ({ committed := [0], pending := Option.none },
       .error "Problem in configureRunStream() database transaction !") ∧
    @releasePromptRecoTx Nat [(3, [(10, false)]), (4, [(11, true)])]
        { committed := [0], pending := Option.none } =
      ({ committed := [0, 10], pending := Option.none },
       .error "Problem in releasePromptReco() database transaction !") :=
  ⟨by
    have h := (@transactional_units_atomic Nat
      { committed := [0], pending := Option.none } rfl 1 "A"
      [(10, false), (11, false)] [] 0 [] []).1 (by decide)
    simpa using h,
   by
    have h := (@transactional_units_atomic Nat
      { committed := [0], pending := Option.none } rfl 1 "A"
      [(10, false), (11, true)] [] 0 [] []).2.1 (by decide)
    simpa using h,
   by
    have h := (@transactional_units_atomic Nat
      { committed := [0], pending := Option.none } rfl 1 "A" []
      [(3, [(10, false)])] 4 [(11, true)] []).2.2 (by decide) (by decide)
    simpa using h⟩

/-- C7 (counterexample): the fatal errors raised by the transaction
blocks carry a fixed message — two different runs and streams produce
identical errors, so the error does not name the affected run or
stream. -/
theorem transactionFailure_message_counterexample :
    (@configureRunStreamTx Nat 1 "StreamA" [(0, true)]
        { committed := [], pending := Option.none }).2 =
      (@configureRunStreamTx Nat 2 "StreamB" [(0, true)]
        { committed := [], pending := Option.none }).2 ∧
    (@releasePromptRecoTx Nat [(1, [(0, true)])]
        { committed := [], pending := Option.none }).2 =
      (@releasePromptRecoTx Nat [(2, [(0, true)])]
        { committed := [], pending := Option.none }).2 := by
  exact ⟨rfl, rfl⟩

/-- C7 (amended): whenever the configuration transaction of
`configureRunStream` fails it signals the fixed message
"Problem in configureRunStream() database transaction !", and whenever
a run's release batch in `releasePromptReco` fails it signals the fixed
message "Problem in releasePromptReco() database transaction !" — the
messages identify the failing operation but do not vary with, and so do
not name, the affected run or stream. -/
theorem transactionFailure_fixed_messages {α : Type} (s : TxStore α)
    (hpend : s.pending = Option.none) (run : Nat) (stream : String)
    (ws : List (α × Bool)) (hfail : ∃ w ∈ ws, w.2 = true)
    (done : List (Nat × List (α × Bool))) (r : Nat) (fws : List (α × Bool))
    (rest : List (Nat × List (α × Bool)))
    (hdone : ∀ b ∈ done, ∀ w ∈ b.2, w.2 = false)
    (hfail2 : ∃ w ∈ fws, w.2 = true) :
    (configureRunStreamTx run stream ws s).2 =
      .error "Problem in configureRunStream() database transaction !" ∧
    (releasePromptRecoTx (done ++ (r, fws) :: rest) s).2 =
      .error "Problem in releasePromptReco() database transaction !" := by
  obtain ⟨c, p⟩ := s
  simp only at hpend
  subst hpend
  constructor
  · unfold configureRunStreamTx runTxUnit txBegin
    rw [runTxWrites_fail _ ws c (some c) hfail]
  · rw [releasePromptRecoTx_prefix_fail done c r fws rest hdone hfail2]

/-- C7 (witness): the fixed messages observed at concrete failing
inputs. -/
theorem transactionFailure_fixed_messages_witness :
    (@configureRunStreamTx Nat 5 "A" [(0, true)]
        { committed := [], pending := Option.none }).2 =
      .error "Problem in configureRunStream() database transaction !" ∧
    (@releasePromptRecoTx Nat [(3, [(0, false)]), (4, [(1, true)])]
        { committed := [], pending := Option.none }).2 =
      .error "Problem in releasePromptReco() database transaction !" := by
  have h := @transactionFailure_fixed_messages Nat
    { committed := [], pending := Option.none } rfl 5 "A" [(0, true)]
    (by decide) [(3, [(0, false)])] 4 [(1, true)] [] (by decide) (by decide)
  exact ⟨h.1, by simpa using h.2⟩
